import Mathlib

/-
Verification of the record-keeping backend (`main.py`, `schemas.py`).

Shallow embedding conventions:
- Pydantic request bodies become plain Lean structures; a field that may be
  absent in the JSON body is an `Option`.
- Pydantic validation of the `Job` shape (`schemas.py`, class Job) becomes
  `Job.validate : JobRaw → Except String Job` returning `Except.error` exactly
  when pydantic would raise a ValidationError (surfaced as a client error).
- Stored documents (what the external store hands back to the GET endpoints)
  are association lists `List (String × JVal)` over a JSON-like value type,
  mirroring Python dicts with unique keys.
- The document store itself lives in `database.py`, which is not part of the
  source tree; where a store operation is needed it is modelled from the
  spec's store contract and marked `Modelled from the spec:` in its doc
  comment.
- Python exceptions are `Except String`; a handler that Python guarantees
  never raises is a total Lean function into its response type.
-/

namespace Studio

/-- JSON-like values stored in documents, plus an opaque `oid` constructor for
the store's raw identifiers (Python `ObjectId`). -/
inductive JVal where
  | null : JVal
  | bool : Bool → JVal
  | num : Int → JVal
  | str : String → JVal
  | oid : Nat → JVal
  | arr : List JVal → JVal
  | obj : List (String × JVal) → JVal
deriving Repr

/-- A stored document: a Python dict as an association list with unique keys. -/
abbrev Doc : Type := List (String × JVal)

/-- Python `d[key]` / `key in d` on a dict: first binding of `key`. -/
def getKey : Doc → String → Option JVal
  | [], _ => none
  | (k1, v1) :: rest, key => if k1 = key then some v1 else getKey rest key

/-- Python `d.pop(key)`'s removal effect: drop the binding of `key`. -/
def eraseKey : Doc → String → Doc
  | [], _ => []
  | (k1, v1) :: rest, key =>
      if k1 = key then eraseKey rest key else (k1, v1) :: eraseKey rest key

/-- Python `d[key] = v` on a dict: replace in place if present, else append. -/
def setKey : Doc → String → JVal → Doc
  | [], key, v => [(key, v)]
  | (k1, v1) :: rest, key, v =>
      if k1 = key then (key, v) :: rest else (k1, v1) :: setKey rest key v

/-- Python `str(...)` as applied by the endpoints to a stored identifier value. -/
def jvalToString : JVal → String
  | JVal.null => "None"
  | JVal.bool b => if b then "True" else "False"
  | JVal.num i => toString i
  | JVal.str s => s
  | JVal.oid n => toString n
  | JVal.arr _ => "<arr>"
  | JVal.obj _ => "<obj>"

/-- The per-record body of each GET list endpoint (`main.py`, `list_models`,
`list_pipelines`, `list_jobs`):
`if "_id" in d: d["id"] = str(d.pop("_id"))`. -/
def normalizeDoc (d : Doc) : Doc :=
  match getKey d "_id" with
  | none => d
  | some v => setKey (eraseKey d "_id") "id" (JVal.str (jvalToString v))

/-- `GET /models` (`main.py`, `list_models`): `docs` is the sequence the
external `get_documents("model")` returned; each record is normalized. -/
def list_models (docs : List Doc) : List Doc := docs.map normalizeDoc

/-- `GET /pipelines` (`main.py`, `list_pipelines`), same normalization. -/
def list_pipelines (docs : List Doc) : List Doc := docs.map normalizeDoc

/-- `GET /jobs` (`main.py`, `list_jobs`), same normalization. -/
def list_jobs (docs : List Doc) : List Doc := docs.map normalizeDoc

/-- One declared pydantic field of a schema class (`schemas.py`). -/
structure FieldSpec where
  name : String
  required : Bool
deriving DecidableEq, Repr

/-- Declared fields of `schemas.Model`, in declaration order. -/
def modelFields : List FieldSpec :=
  [⟨"name", true⟩, ⟨"description", false⟩, ⟨"identity_seed", false⟩,
   ⟨"tags", false⟩, ⟨"style_preset", false⟩, ⟨"face_embeddings", false⟩,
   ⟨"consistency_profile", false⟩]

/-- Declared fields of `schemas.Pipeline`, in declaration order. -/
def pipelineFields : List FieldSpec :=
  [⟨"name", true⟩, ⟨"version", false⟩, ⟨"is_active", false⟩,
   ⟨"nodes", false⟩, ⟨"edges", false⟩]

/-- Declared fields of `schemas.Dataset`, in declaration order. -/
def datasetFields : List FieldSpec :=
  [⟨"model_id", false⟩, ⟨"title", true⟩, ⟨"status", false⟩,
   ⟨"size", false⟩, ⟨"items", false⟩]

/-- Declared fields of `schemas.Job`, in declaration order. -/
def jobFields : List FieldSpec :=
  [⟨"type", true⟩, ⟨"model_id", false⟩, ⟨"pipeline_id", false⟩,
   ⟨"params", false⟩, ⟨"status", false⟩, ⟨"progress", false⟩,
   ⟨"output", false⟩]

/-- Pydantic `model_json_schema()["properties"].keys()`: the declared field
names, in declaration order. -/
def jsonSchemaProperties (fields : List FieldSpec) : List String :=
  fields.map FieldSpec.name

/-- One entry of the `GET /schema` response. -/
structure CollectionDescriptor where
  name : String
  fields : List String
deriving DecidableEq, Repr

/-- `GET /schema` (`main.py`, `get_schema`): the four collection descriptors,
each with the introspected field-name list of its schema class. -/
def get_schema : List CollectionDescriptor :=
  [{ name := "model", fields := jsonSchemaProperties modelFields },
   { name := "pipeline", fields := jsonSchemaProperties pipelineFields },
   { name := "dataset", fields := jsonSchemaProperties datasetFields },
   { name := "job", fields := jsonSchemaProperties jobFields }]

/-- The literal set of `schemas.Job.type` (`Literal[...]` in `schemas.py`). -/
def jobTypes : List String :=
  ["face", "fullbody", "angles360", "expression", "background", "dress",
   "dataset"]

/-- The literal set of `schemas.Job.status` (`Literal[...]` in `schemas.py`). -/
def jobStatuses : List String := ["queued", "running", "succeeded", "failed"]

/-- A validated `schemas.Job` record. -/
structure Job where
  type : String
  model_id : Option String
  pipeline_id : Option String
  params : List (String × JVal)
  status : String
  progress : Int
  output : List (List (String × JVal))

/-- A raw `POST /jobs` body before pydantic validation: each field is `none`
when absent from (or null in) the JSON body. -/
structure JobRaw where
  type : Option String
  model_id : Option String
  pipeline_id : Option String
  params : Option (List (String × JVal))
  status : Option (String)
  progress : Option Int
  output : Option (List (List (String × JVal)))

/-- Pydantic validation of the `Job` shape (`schemas.py`, class Job):
`type` is required and restricted to `jobTypes`; `status` defaults to
"queued" and is restricted to `jobStatuses`; `params`, `progress` and
`output` default to empty / 0; `model_id` and `pipeline_id` default to null. -/
def Job.validate (r : JobRaw) : Except String Job :=
  match r.type with
  | none => Except.error "type: field required"
  | some t =>
      if t ∈ jobTypes then
        let st := r.status.getD "queued"
        if st ∈ jobStatuses then
          Except.ok
            { type := t, model_id := r.model_id, pipeline_id := r.pipeline_id,
              params := r.params.getD [], status := st,
              progress := r.progress.getD 0, output := r.output.getD [] }
        else Except.error "status: unexpected value"
      else Except.error "type: unexpected value"

/-- The "job" collection of the store, with the store's identifier counter. -/
structure Store where
  docs : List (Nat × Job)
  nextId : Nat

/-- Modelled from the spec: `create_document` is defined in `database.py`,
which is not part of the source tree. Per the spec's store contract (§4.1,
`insert`), it inserts the validated record into the named collection and
returns a fresh opaque unique identifier, which the endpoints expose to
clients as a string. -/
def create_document (s : Store) (j : Job) : Nat × Store :=
  (s.nextId, { docs := s.docs ++ [(s.nextId, j)], nextId := s.nextId + 1 })

/-- Outcome of `POST /jobs`: a pydantic ValidationError becomes a client
error before the handler body runs; otherwise the handler returns
`{"id": inserted_id, "status": payload.status}`. -/
structure JobsPostOk where
  id : String
  status : String
deriving DecidableEq, Repr

/-- Result of the `POST /jobs` request. -/
inductive JobsPostResult where
  | clientError : String → JobsPostResult
  | ok : JobsPostOk → JobsPostResult

/-- Whether a `POST /jobs` outcome is a validation client error. -/
def JobsPostResult.isClientError : JobsPostResult → Bool
  | JobsPostResult.clientError _ => true
  | JobsPostResult.ok _ => false

/-- `POST /jobs` (`main.py`, `create_job`) together with the framework's
validation step: validate the body, and only on success insert. The returned
`Store` is the store after the request. -/
def post_jobs (s : Store) (r : JobRaw) : JobsPostResult × Store :=
  match Job.validate r with
  | Except.error e => (JobsPostResult.clientError e, s)
  | Except.ok payload =>
      let ins := create_document s payload
      (JobsPostResult.ok { id := toString ins.1, status := payload.status },
       ins.2)

/-- The `POST /generate` body (`main.py`, class GenerateRequest). -/
structure GenerateRequest where
  model_id : Option String
  pipeline_id : Option String
  task : String
  promptless : Bool
  params : List (String × JVal)

/-- The task strings accepted verbatim by `/generate` (`main.py`,
`generate_assets`, the membership list in the conditional). -/
def generateTaskTypes : List String :=
  ["face", "fullbody", "angles360", "expression", "background", "dress"]

/-- The keyword arguments `generate_assets` passes to the `JobSchema(...)`
constructor, as a raw record for pydantic validation: `type` is the request
task if it is in `generateTaskTypes`, else "dataset"; `params` is
`req.params or 'empty dict'`; `status` and `progress` are hardcoded; `output` is
left to its default. -/
def generateJobRaw (req : GenerateRequest) : JobRaw :=
  { type := some (if req.task ∈ generateTaskTypes then req.task else "dataset"),
    model_id := req.model_id,
    pipeline_id := req.pipeline_id,
    params := some (if req.params.isEmpty then [] else req.params),
    status := some "queued",
    progress := some 0,
    output := none }

/-- The `POST /generate` response body. -/
structure GenerateResponse where
  job_id : String
  status : String
deriving DecidableEq, Repr

/-- `POST /generate` (`main.py`, `generate_assets`): build a `JobSchema`
(whose constructor validates, hence the `Except`), insert it, and return
`{"job_id": job_id, "status": "queued"}`. -/
def generate_assets (s : Store) (req : GenerateRequest) :
    Except String (GenerateResponse × Store) :=
  match Job.validate (generateJobRaw req) with
  | Except.error e => Except.error e
  | Except.ok job =>
      let ins := create_document s job
      Except.ok ({ job_id := toString ins.1, status := "queued" }, ins.2)

/-- The `GET /test` response object (`main.py`, `test_database`). -/
structure TestResponse where
  backend : String
  database : String
  database_url : String
  database_name : String
  connection_status : String
  collections : List String
deriving DecidableEq, Repr

/-- Python truthiness of `os.getenv(...)`: unset or empty is falsy. -/
def pyTruthy : Option String → Bool
  | none => false
  | some s => s ≠ ""

/-- Python `os.getenv("DATABASE_NAME") or "❌ Not Set"`. -/
def envNameDisplay : Option String → String
  | none => "❌ Not Set"
  | some s => if s = "" then "❌ Not Set" else s

/-- `GET /test` (`main.py`, `test_database`). The store is modelled by its
observable behaviour in this handler: `none` when the handle `db` is `None`,
otherwise the outcome of `db.list_collection_names()` (`Except.error e`
when that call raises, with `e` the exception's string). `dbUrl` and
`dbName` are the two environment variables as read by `os.getenv`. The
handler is a total function: no exception escapes it. -/
def test_database (db : Option (Except String (List String)))
    (dbUrl dbName : Option String) : TestResponse :=
  let base : TestResponse :=
    { backend := "✅ Running", database := "❌ Not Available",
      database_url := "❌ Not Set", database_name := "❌ Not Set",
      connection_status := "Not Connected", collections := [] }
  match db with
  | none => { base with database := "⚠️ Available but not initialized" }
  | some listOutcome =>
      let r := { base with
        database := "✅ Available",
        database_url := if pyTruthy dbUrl then "✅ Set" else "❌ Not Set",
        database_name := envNameDisplay dbName,
        connection_status := "Connected" }
      match listOutcome with
      | Except.ok names =>
          { r with collections := names.take 10,
                   database := "✅ Connected & Working" }
      | Except.error e =>
          { r with database := "⚠️ Connected but Error: " ++ e.take 80 }

/-! ### Helper lemmas -/

lemma getKey_eraseKey (d : Doc) (k : String) : getKey (eraseKey d k) k = none := by
  induction d with
  | nil => rfl
  | cons kv rest ih =>
      obtain ⟨k1, v1⟩ := kv
      by_cases h : k1 = k <;> simp [eraseKey, getKey, h, ih]

lemma getKey_setKey_self (d : Doc) (k : String) (v : JVal) :
    getKey (setKey d k v) k = some v := by
  induction d with
  | nil => simp [setKey, getKey]
  | cons kv rest ih =>
      obtain ⟨k1, v1⟩ := kv
      by_cases h : k1 = k <;> simp [setKey, getKey, h, ih]

lemma getKey_setKey_ne (d : Doc) (k k2 : String) (v : JVal) (h : k2 ≠ k) :
    getKey (setKey d k v) k2 = getKey d k2 := by
  induction d with
  | nil => simp [setKey, getKey, Ne.symm h]
  | cons kv rest ih =>
      obtain ⟨k1, v1⟩ := kv
      by_cases h1 : k1 = k
      · subst h1
        simp [setKey, getKey, Ne.symm h]
      · by_cases h2 : k1 = k2 <;> simp [setKey, getKey, h1, h2, ih, h]

lemma normalizeDoc_of_id (d : Doc) (v : JVal) (hid : getKey d "_id" = some v) :
    getKey (normalizeDoc d) "id" = some (JVal.str (jvalToString v)) ∧
    getKey (normalizeDoc d) "_id" = none := by
  unfold normalizeDoc
  rw [hid]
  refine ⟨getKey_setKey_self _ _ _, ?_⟩
  rw [getKey_setKey_ne _ _ _ _ (by decide)]
  exact getKey_eraseKey d "_id"

lemma mem_jobTypes_of_mem_generateTaskTypes {t : String}
    (h : t ∈ generateTaskTypes) : t ∈ jobTypes := by
  simp only [generateTaskTypes, List.mem_cons, List.not_mem_nil, or_false] at h
  rcases h with h | h | h | h | h | h <;> subst h <;> decide

/-- The record `generate_assets` builds and the validator accepts. -/
def generatedJob (req : GenerateRequest) : Job :=
  { type := if req.task ∈ generateTaskTypes then req.task else "dataset",
    model_id := req.model_id, pipeline_id := req.pipeline_id,
    params := if req.params.isEmpty then [] else req.params,
    status := "queued", progress := 0, output := [] }

lemma validate_generateJobRaw (req : GenerateRequest) :
    Job.validate (generateJobRaw req) = Except.ok (generatedJob req) := by
  unfold Job.validate generateJobRaw generatedJob
  by_cases h : req.task ∈ generateTaskTypes
  · simp [h, mem_jobTypes_of_mem_generateTaskTypes h, jobStatuses]
  · simp [h, jobTypes, jobStatuses]

lemma generate_assets_eq (s : Store) (req : GenerateRequest) :
    generate_assets s req = Except.ok
      ({ job_id := toString s.nextId, status := "queued" },
       { docs := s.docs ++ [(s.nextId, generatedJob req)],
         nextId := s.nextId + 1 }) := by
  unfold generate_assets
  rw [validate_generateJobRaw]
  rfl

/-! ### Claim theorems -/

/-- C1: For every POST /generate request, if the request's task string is in
{face, fullbody, angles360, expression, background, dress} then the Job
record created has type equal to that task string; for any other task string
the created Job has type "dataset". -/
theorem generate_task_type_policy (s : Store) (req : GenerateRequest) :
    ∃ resp s2 j, generate_assets s req = Except.ok (resp, s2) ∧
      s2.docs = s.docs ++ [(s.nextId, j)] ∧
      j.type = if req.task ∈ generateTaskTypes then req.task else "dataset" :=
  ⟨_, _, generatedJob req, generate_assets_eq s req, rfl, rfl⟩

/-- C2: Every POST /generate request creates a Job with status "queued" and
progress 0, and the response is `{job_id: <new job's id>, status: "queued"}`,
regardless of any field of the input. -/
theorem generate_always_queued (s : Store) (req : GenerateRequest) :
    ∃ s2 j, generate_assets s req =
        Except.ok ({ job_id := toString s.nextId, status := "queued" }, s2) ∧
      s2.docs = s.docs ++ [(s.nextId, j)] ∧
      j.status = "queued" ∧ j.progress = 0 :=
  ⟨_, generatedJob req, generate_assets_eq s req, rfl, rfl, rfl⟩

/-- C4: Every record with the store's raw identifier field returned by a GET
collection endpoint is listed with an `id` field holding the string coercion
of the raw identifier, and without the raw `_id` field. -/
theorem get_endpoints_normalize_id (docs : List Doc) (d : Doc) (v : JVal)
    (hmem : d ∈ docs) (hid : getKey d "_id" = some v) :
    normalizeDoc d ∈ list_models docs ∧
    normalizeDoc d ∈ list_pipelines docs ∧
    normalizeDoc d ∈ list_jobs docs ∧
    getKey (normalizeDoc d) "id" = some (JVal.str (jvalToString v)) ∧
    getKey (normalizeDoc d) "_id" = none := by
  obtain ⟨h1, h2⟩ := normalizeDoc_of_id d v hid
  exact ⟨List.mem_map_of_mem _ hmem, List.mem_map_of_mem _ hmem,
         List.mem_map_of_mem _ hmem, h1, h2⟩

/-- Witness for C4 at a concrete one-document store result. -/
theorem get_endpoints_normalize_id_witness :
    normalizeDoc [("_id", JVal.oid 7), ("type", JVal.str "face")] ∈
      list_models [[("_id", JVal.oid 7), ("type", JVal.str "face")]] ∧
    normalizeDoc [("_id", JVal.oid 7), ("type", JVal.str "face")] ∈
      list_pipelines [[("_id", JVal.oid 7), ("type", JVal.str "face")]] ∧
    normalizeDoc [("_id", JVal.oid 7), ("type", JVal.str "face")] ∈
      list_jobs [[("_id", JVal.oid 7), ("type", JVal.str "face")]] ∧
    getKey (normalizeDoc [("_id", JVal.oid 7), ("type", JVal.str "face")]) "id"
      = some (JVal.str (jvalToString (JVal.oid 7))) ∧
    getKey (normalizeDoc [("_id", JVal.oid 7), ("type", JVal.str "face")])
      "_id" = none :=
  get_endpoints_normalize_id
    [[("_id", JVal.oid 7), ("type", JVal.str "face")]]
    [("_id", JVal.oid 7), ("type", JVal.str "face")]
    (JVal.oid 7) (List.Mem.head _) rfl

/-- C5: GET /schema returns exactly four collection descriptors named, in
order, "model", "pipeline", "dataset", "job", each listing the declared
top-level field names of the corresponding schema class, in declaration
order. -/
theorem schema_endpoint_descriptors :
    get_schema.map CollectionDescriptor.name =
      ["model", "pipeline", "dataset", "job"] ∧
    get_schema.map CollectionDescriptor.fields =
      [jsonSchemaProperties modelFields, jsonSchemaProperties pipelineFields,
       jsonSchemaProperties datasetFields, jsonSchemaProperties jobFields] ∧
    get_schema =
      [{ name := "model",
         fields := ["name", "description", "identity_seed", "tags",
                    "style_preset", "face_embeddings",
                    "consistency_profile"] },
       { name := "pipeline",
         fields := ["name", "version", "is_active", "nodes", "edges"] },
       { name := "dataset",
         fields := ["model_id", "title", "status", "size", "items"] },
       { name := "job",
         fields := ["type", "model_id", "pipeline_id", "params", "status",
                    "progress", "output"] }] :=
  ⟨rfl, rfl, rfl⟩

/-- C10: The promptless field of a POST /generate request has no effect:
two requests identical except in promptless produce the same result
(response and store). -/
theorem generate_promptless_noninterference (s : Store)
    (req : GenerateRequest) (b : Bool) :
    generate_assets s { req with promptless := b } = generate_assets s req :=
  rfl

/-- C3: A POST /jobs body whose type is outside the Job type enumeration
(likewise a status outside the status enumeration, or a missing type) is
rejected with a client error and no document is inserted: the store after
the request is the store before it. -/
theorem post_jobs_rejects_out_of_enum (s : Store) (r : JobRaw)
    (h : r.type = none ∨ (∃ t, r.type = some t ∧ t ∉ jobTypes) ∨
         (∃ st, r.status = some st ∧ st ∉ jobStatuses)) :
    (post_jobs s r).1.isClientError = true ∧ (post_jobs s r).2 = s := by
  rcases h with h | ⟨t, ht, hmem⟩ | ⟨st, hst, hmem⟩
  · simp [post_jobs, Job.validate, h, JobsPostResult.isClientError]
  · simp [post_jobs, Job.validate, ht, hmem, JobsPostResult.isClientError]
  · rcases htype : r.type with _ | t
    · simp [post_jobs, Job.validate, htype, JobsPostResult.isClientError]
    · by_cases hT : t ∈ jobTypes
      · simp [post_jobs, Job.validate, htype, hT, hst, hmem,
              JobsPostResult.isClientError]
      · simp [post_jobs, Job.validate, htype, hT,
              JobsPostResult.isClientError]

/-- Witness for C3: the out-of-enum type "sparkle" is rejected and the store
is untouched. -/
theorem post_jobs_rejects_out_of_enum_witness :
    (post_jobs { docs := [], nextId := 0 }
        { type := some "sparkle", model_id := none, pipeline_id := none,
          params := none, status := none, progress := none,
          output := none }).1.isClientError = true ∧
    (post_jobs { docs := [], nextId := 0 }
        { type := some "sparkle", model_id := none, pipeline_id := none,
          params := none, status := none, progress := none,
          output := none }).2 = { docs := [], nextId := 0 } :=
  post_jobs_rejects_out_of_enum { docs := [], nextId := 0 }
    { type := some "sparkle", model_id := none, pipeline_id := none,
      params := none, status := none, progress := none, output := none }
    (Or.inr (Or.inl ⟨"sparkle", rfl, by decide⟩))

/-- C6: A valid POST /jobs body yields the response
`{id: <inserted id as string>, status: <validated payload's status>}`, and
the validated record is inserted. -/
theorem post_jobs_echoes_status (s : Store) (r : JobRaw) (payload : Job)
    (h : Job.validate r = Except.ok payload) :
    post_jobs s r =
      (JobsPostResult.ok
         { id := toString s.nextId, status := payload.status },
       { docs := s.docs ++ [(s.nextId, payload)],
         nextId := s.nextId + 1 }) := by
  unfold post_jobs
  rw [h]
  rfl

/-- Witness for C6: supplying status "running" yields a response whose
status is "running". -/
theorem post_jobs_echoes_status_witness :
    post_jobs { docs := [], nextId := 0 }
        { type := some "face", model_id := none, pipeline_id := none,
          params := none, status := some "running", progress := some 40,
          output := none } =
      (JobsPostResult.ok { id := toString 0, status := "running" },
       { docs := [(0, { type := "face", model_id := none,
                        pipeline_id := none, params := [],
                        status := "running", progress := 40,
                        output := [] })],
         nextId := 1 }) :=
  post_jobs_echoes_status { docs := [], nextId := 0 }
    { type := some "face", model_id := none, pipeline_id := none,
      params := none, status := some "running", progress := some 40,
      output := none }
    { type := "face", model_id := none, pipeline_id := none, params := [],
      status := "running", progress := 40, output := [] }
    rfl

/-- C8: Pydantic defaults for the Job shape: a body supplying only a valid
type validates to a record with status "queued", progress 0, empty params,
empty output, and null model_id and pipeline_id — and the POST /jobs
response for such a body reports status "queued". -/
theorem job_validate_defaults (t : String) (s : Store) (h : t ∈ jobTypes) :
    Job.validate
        { type := some t, model_id := none, pipeline_id := none,
          params := none, status := none, progress := none,
          output := none } =
      Except.ok
        { type := t, model_id := none, pipeline_id := none, params := [],
          status := "queued", progress := 0, output := [] } ∧
    (post_jobs s
        { type := some t, model_id := none, pipeline_id := none,
          params := none, status := none, progress := none,
          output := none }).1 =
      JobsPostResult.ok { id := toString s.nextId, status := "queued" } := by
  have hv :
      Job.validate
          { type := some t, model_id := none, pipeline_id := none,
            params := none, status := none, progress := none,
            output := none } =
        Except.ok
          { type := t, model_id := none, pipeline_id := none, params := [],
            status := "queued", progress := 0, output := [] } := by
    simp [Job.validate, h, jobStatuses]
  exact ⟨hv, by simp [post_jobs, hv, create_document]⟩

/-- Witness for C8 at type "face". -/
theorem job_validate_defaults_witness :
    Job.validate
        { type := some "face", model_id := none, pipeline_id := none,
          params := none, status := none, progress := none,
          output := none } =
      Except.ok
        { type := "face", model_id := none, pipeline_id := none,
          params := [], status := "queued", progress := 0, output := [] } ∧
    (post_jobs { docs := [], nextId := 0 }
        { type := some "face", model_id := none, pipeline_id := none,
          params := none, status := none, progress := none,
          output := none }).1 =
      JobsPostResult.ok { id := toString 0, status := "queued" } :=
  job_validate_defaults "face" { docs := [], nextId := 0 } (by decide)

/-- C7: GET /test is total over every store behaviour — uninitialized
handle, healthy listing, or a raised exception — always reporting the
backend as running; a listing fault only downgrades the database status
string, and a healthy listing reports at most the first 10 collection
names. -/
theorem test_endpoint_robust (db : Option (Except String (List String)))
    (u n : Option String) :
    (test_database db u n).backend = "✅ Running" ∧
    (test_database db u n).collections.length ≤ 10 ∧
    (db = none →
      test_database db u n =
        { backend := "✅ Running",
          database := "⚠️ Available but not initialized",
          database_url := "❌ Not Set", database_name := "❌ Not Set",
          connection_status := "Not Connected", collections := [] }) ∧
    (∀ names, db = some (Except.ok names) →
      (test_database db u n).collections = names.take 10 ∧
      (test_database db u n).database = "✅ Connected & Working") ∧
    (∀ e, db = some (Except.error e) →
      (test_database db u n).database =
          "⚠️ Connected but Error: " ++ e.take 80 ∧
      (test_database db u n).connection_status = "Connected" ∧
      (test_database db u n).collections = []) := by
  refine ⟨?_, ?_, ?_, ?_, ?_⟩
  · rcases db with _ | (e | names) <;> rfl
  · rcases db with _ | (e | names) <;> simp [test_database]
  · intro h
    subst h
    rfl
  · intro names h
    subst h
    exact ⟨rfl, rfl⟩
  · intro e h
    subst h
    exact ⟨rfl, rfl, rfl⟩

/-- Witness for C7 at a healthy two-collection store. -/
theorem test_endpoint_robust_witness :
    (test_database (some (Except.ok ["model", "job"])) none
        (some "db")).collections = ["model", "job"].take 10 ∧
    (test_database (some (Except.ok ["model", "job"])) none
        (some "db")).database = "✅ Connected & Working" :=
  (test_endpoint_robust (some (Except.ok ["model", "job"])) none
      (some "db")).2.2.2.1 ["model", "job"] rfl

/-- C9 counterexample: with the store handle initialized, the database_name
field of GET /test reports the value of the database-name variable, not a
presence flag: two environments both having the variable set, differing only
in its value, produce different response fields, and the value itself
appears in the response. -/
theorem test_env_name_value_exposed :
    (test_database (some (Except.ok [])) (some "mongodb://localhost")
        (some "studio_db")).database_name = "studio_db" ∧
    (test_database (some (Except.ok [])) (some "mongodb://localhost")
        (some "other_db")).database_name = "other_db" ∧
    (test_database (some (Except.ok [])) (some "mongodb://localhost")
        (some "studio_db")).database_name ≠
      (test_database (some (Except.ok [])) (some "mongodb://localhost")
        (some "other_db")).database_name :=
  ⟨rfl, rfl, by decide⟩

/-- C9 (amended): with the store handle initialized, the database_url field
is a presence flag only — it depends only on the Python truthiness of the
connection-endpoint variable, never on its value — while the database_name
field reports the database-name variable's value verbatim when set and
non-empty, else a not-set marker. -/
theorem test_env_reporting (c : Except String (List String))
    (u1 u2 n : Option String) (h : pyTruthy u1 = pyTruthy u2) :
    (test_database (some c) u1 n).database_url =
      (test_database (some c) u2 n).database_url ∧
    (test_database (some c) u1 n).database_name = envNameDisplay n := by
  rcases c with e | names <;> simp [test_database, h]

/-- Witness for C9 (amended): two distinct set values of the
connection-endpoint variable give the same database_url field. -/
theorem test_env_reporting_witness :
    (test_database (some (Except.ok [])) (some "mongodb://a")
        (some "db")).database_url =
      (test_database (some (Except.ok [])) (some "mongodb://b")
        (some "db")).database_url ∧
    (test_database (some (Except.ok [])) (some "mongodb://a")
        (some "db")).database_name = envNameDisplay (some "db") :=
  test_env_reporting (Except.ok []) (some "mongodb://a") (some "mongodb://b")
    (some "db") rfl

end Studio
